import Mathlib

/-!
Verification of the Nova AI chatbot backend (src/backend/server2.js).

The file embeds the POST /api/chat request-handling pipeline of both server
variants found in server2.js: input validation, provider-availability
detection, fallback selection, the upstream completion call, and the
error-to-HTTP-status mapping.  Logging (console.log / console.warn /
console.error) is a side effect with no influence on the HTTP outcome and is
not modelled.  The upstream OpenAI client is modelled by an explicit
`UpstreamBehavior` parameter describing what the single
`openai.chat.completions.create` call would do.
-/

/-- A JavaScript value, as far as the chat handler inspects the `message`
field of the request body.  `undefined` is what destructuring yields when the
field is absent. -/
inductive JsValue where
  | undefined
  | null
  | boolean (b : Bool)
  | number (n : Int)
  | str (s : String)
  | object
deriving DecidableEq

/-- JavaScript truthiness of a value: `undefined`, `null`, `false`, `0` and
the empty string are falsy; everything else modelled here is truthy. -/
def JsValue.truthy : JsValue → Bool
  | .undefined => false
  | .null => false
  | .boolean b => b
  | .number n => n != 0
  | .str s => s != ""
  | .object => true

/-- `typeof v === "string"` for the modelled values. -/
def JsValue.isString : JsValue → Bool
  | .str _ => true
  | _ => false

/-- The underlying string of a string value (only meaningful when
`isString` holds; the handler reads it only in that case). -/
def JsValue.asString : JsValue → String
  | .str s => s
  | _ => ""

/-- The process environment as the chat handler observes it: whether
`require("openai")` succeeds, and the value of `process.env.OPENAI_API_KEY`
(`none` when the variable is unset). -/
structure Env where
  openaiLoadable : Bool
  openaiApiKey : Option String
deriving DecidableEq

/-- Truthiness of `process.env.OPENAI_API_KEY`: an unset variable is
`undefined` (falsy) and the empty string is falsy, so
`!process.env.OPENAI_API_KEY` holds exactly when this is `false`. -/
def apiKeyConfigured : Option String → Bool
  | none => false
  | some s => s != ""

/-- One message of the outbound chat payload (`{ role, content }`). -/
structure ChatMessage where
  role : String
  content : String
deriving DecidableEq

/-- The argument object of `openai.chat.completions.create`. -/
structure CompletionRequest where
  model : String
  messages : List ChatMessage
  max_tokens : Nat
  temperature : ℚ
deriving DecidableEq

/-- One element of `completion.choices`; the handler reads
`choices[0].message.content`. -/
structure Choice where
  message : ChatMessage
deriving DecidableEq

/-- The value resolved by a successful `create` call:  a list of choices and
optional usage metadata (`completion.usage?.total_tokens`). -/
structure Completion where
  choices : List Choice
  usage_total_tokens : Option Nat
deriving DecidableEq

/-- An error thrown by the upstream call, as far as the catch block inspects
it: a machine-readable `code` property (absent on generic errors) and a
free-text `message`. -/
structure UpstreamError where
  code : Option String
  message : String
deriving DecidableEq

/-- What the single upstream completion call would do if issued: resolve
with a completion object, or throw an error. -/
inductive UpstreamBehavior where
  | completes (c : Completion)
  | throws (e : UpstreamError)
deriving DecidableEq

/-- An HTTP response as produced by the handlers: a status code (200 when
`res.json` is called without `res.status`) and the JSON body, which the code
builds as an object literal with a single `response` or `error` key; both
fields are `none` when the corresponding key is absent from the literal. -/
structure HttpResponse where
  status : Nat
  response : Option String
  error : Option String
deriving DecidableEq

/-- The `systemPrompt` constant of the first chat handler
(src/backend/server2.js lines 97-113), transcribed verbatim including the
trailing space on its first line. -/
def systemPrompt : String :=
  "You are Nova AI Assistant, a helpful AI assistant for Nova AI Solutions, a company specializing in enterprise AI solutions, IoT integration, and solar technology. \n\nYour role is to:\n1. Help users understand our AI, IoT, and Solar solutions\n2. Provide information about our services and capabilities\n3. Answer questions about artificial intelligence, machine learning, IoT devices, and renewable energy\n4. Guide users to contact our team for detailed consultations\n5. Be professional, knowledgeable, and helpful\n\nKey information about Nova AI Solutions:\n- We provide custom AI solutions for enterprise businesses\n- We offer IoT integration services and smart device management\n- We develop solar technology and sustainable energy solutions\n- We help businesses automate operations and improve efficiency\n- We offer consultation and implementation services\n\nAlways be helpful and direct users to our contact page (contact-us.html) for detailed consultations or project discussions."

/-- The `fallbackResponse` constant of the first handler (line 73): the
fixed reply when `require("openai")` fails. -/
def fallbackResponse : String :=
  "I\x27m currently unavailable. Please contact our support team directly for assistance with AI, IoT, or Solar solutions."

/-- The `maintenanceResponse` constant of the first handler (line 84): the
fixed reply when no API key is configured. -/
def maintenanceResponse : String :=
  "I\x27m currently in maintenance mode. Please contact our support team directly for assistance with AI, IoT, or Solar solutions."

/-- The catch block of the first chat handler (lines 136-156): translates a
thrown upstream error into an HTTP response by inspecting only its `code`
property. -/
def handleChatError (e : UpstreamError) : HttpResponse :=
  if e.code == some "insufficient_quota" then
    ⟨503, none, some "Service temporarily unavailable. Please try again later."⟩
  else if e.code == some "invalid_api_key" then
    ⟨500, none, some "Service configuration error. Please contact support."⟩
  else
    ⟨500, none, some "An error occurred while processing your request. Please try again."⟩

/-- The first POST /api/chat handler (src/backend/server2.js lines 47-157).
Returns the HTTP response together with the list of upstream completion
requests issued while handling the request (the `create` call site at line
117 is the only one).  When `completion.choices` is empty, reading
`choices[0].message` throws a TypeError, which carries no `code` property
and is caught by the same catch block. -/
def chatHandler (env : Env) (message : JsValue) (upstream : UpstreamBehavior) :
    HttpResponse × List CompletionRequest :=
  if !message.truthy || !message.isString then
    (⟨400, none, some "Message is required and must be a string"⟩, [])
  else if !env.openaiLoadable then
    (⟨200, some fallbackResponse, none⟩, [])
  else if !(apiKeyConfigured env.openaiApiKey) then
    (⟨200, some maintenanceResponse, none⟩, [])
  else
    let request : CompletionRequest :=
      { model := "gpt-3.5-turbo"
        messages := [⟨"system", systemPrompt⟩, ⟨"user", message.asString⟩]
        max_tokens := 500
        temperature := (0.7 : ℚ) }
    match upstream with
    | .completes c =>
      match c.choices with
      | [] =>
        (handleChatError ⟨none, "TypeError: Cannot read properties of undefined"⟩, [request])
      | choice :: _ => (⟨200, some choice.message.content, none⟩, [request])
    | .throws e => (handleChatError e, [request])

/-- The 404 handler of the first variant (lines 160-164). -/
def notFoundHandler : HttpResponse := ⟨404, none, some "Endpoint not found"⟩

/-- The outermost error handler of the first variant (lines 167-172). -/
def errorHandler : HttpResponse := ⟨500, none, some "Internal server error"⟩

/-- Whether the inbound request gate passes `message` downstream: the code
rejects with 400 exactly when `!message || typeof message !== "string"`. -/
def gatePasses (message : JsValue) : Bool :=
  message.truthy && message.isString

/-- Result of the provider availability check, with the reason labels of
spec section 4.2. -/
inductive Availability where
  | unavailable (reason : String)
  | available
deriving DecidableEq

/-- The provider availability check performed by the handler before the
relay (lines 67-90): first whether `require("openai")` succeeds, then
whether a truthy `OPENAI_API_KEY` is configured; no network I/O is involved
(the check is a pure function of the environment).  The reason strings are
the spec names for the two fallback branches of the source. -/
def checkProviderAvailability (env : Env) : Availability :=
  if !env.openaiLoadable then .unavailable "module-missing"
  else if !(apiKeyConfigured env.openaiApiKey) then .unavailable "no-credential"
  else .available

/-- The `systemPrompt` constant of the second server variant
(src/backend/server2.js lines 264-280), transcribed verbatim; the text is
byte-identical to the first variant's prompt. -/
def systemPrompt2 : String :=
  "You are Nova AI Assistant, a helpful AI assistant for Nova AI Solutions, a company specializing in enterprise AI solutions, IoT integration, and solar technology. \n\nYour role is to:\n1. Help users understand our AI, IoT, and Solar solutions\n2. Provide information about our services and capabilities\n3. Answer questions about artificial intelligence, machine learning, IoT devices, and renewable energy\n4. Guide users to contact our team for detailed consultations\n5. Be professional, knowledgeable, and helpful\n\nKey information about Nova AI Solutions:\n- We provide custom AI solutions for enterprise businesses\n- We offer IoT integration services and smart device management\n- We develop solar technology and sustainable energy solutions\n- We help businesses automate operations and improve efficiency\n- We offer consultation and implementation services\n\nAlways be helpful and direct users to our contact page (contact-us.html) for detailed consultations or project discussions."

/-- The catch block of the second chat handler (lines 296-316), textually
identical to the first variant's catch block. -/
def handleChatError2 (e : UpstreamError) : HttpResponse :=
  if e.code == some "insufficient_quota" then
    ⟨503, none, some "Service temporarily unavailable. Please try again later."⟩
  else if e.code == some "invalid_api_key" then
    ⟨500, none, some "Service configuration error. Please contact support."⟩
  else
    ⟨500, none, some "An error occurred while processing your request. Please try again."⟩

/-- The second POST /api/chat handler (src/backend/server2.js lines
230-317).  It differs from the first only in logging calls; its fallback
replies are written inline rather than bound to named constants. -/
def chatHandler2 (env : Env) (message : JsValue) (upstream : UpstreamBehavior) :
    HttpResponse × List CompletionRequest :=
  if !message.truthy || !message.isString then
    (⟨400, none, some "Message is required and must be a string"⟩, [])
  else if !env.openaiLoadable then
    (⟨200, some "I\x27m currently unavailable. Please contact our support team directly for assistance with AI, IoT, or Solar solutions.", none⟩, [])
  else if !(apiKeyConfigured env.openaiApiKey) then
    (⟨200, some "I\x27m currently in maintenance mode. Please contact our support team directly for assistance with AI, IoT, or Solar solutions.", none⟩, [])
  else
    let request : CompletionRequest :=
      { model := "gpt-3.5-turbo"
        messages := [⟨"system", systemPrompt2⟩, ⟨"user", message.asString⟩]
        max_tokens := 500
        temperature := (0.7 : ℚ) }
    match upstream with
    | .completes c =>
      match c.choices with
      | [] =>
        (handleChatError2 ⟨none, "TypeError: Cannot read properties of undefined"⟩, [request])
      | choice :: _ => (⟨200, some choice.message.content, none⟩, [request])
    | .throws e => (handleChatError2 e, [request])

/-- The 404 handler of the second variant (lines 320-324). -/
def notFoundHandler2 : HttpResponse := ⟨404, none, some "Endpoint not found"⟩

/-- The outermost error handler of the second variant (lines 327-332). -/
def errorHandler2 : HttpResponse := ⟨500, none, some "Internal server error"⟩

/-- The gate passes exactly the non-empty string messages. -/
theorem gatePasses_iff (message : JsValue) :
    gatePasses message = true ↔ ∃ s, message = .str s ∧ s ≠ "" := by
  cases message <;>
    simp [gatePasses, JsValue.truthy, JsValue.isString]

/-- Helper: a message rejected by the gate yields the fixed 400 response and
no upstream call. -/
theorem chatHandler_gate_fail (env : Env) (message : JsValue)
    (upstream : UpstreamBehavior) (h : gatePasses message = false) :
    chatHandler env message upstream =
      (⟨400, none, some "Message is required and must be a string"⟩, []) := by
  unfold chatHandler
  cases message <;> simp_all [gatePasses, JsValue.truthy, JsValue.isString]

/-- Helper: module not loadable, gate passed. -/
theorem chatHandler_module_missing (key : Option String) (s : String)
    (upstream : UpstreamBehavior) (hs : s ≠ "") :
    chatHandler ⟨false, key⟩ (.str s) upstream =
      (⟨200, some fallbackResponse, none⟩, []) := by
  unfold chatHandler
  simp [JsValue.truthy, JsValue.isString, hs]

/-- Helper: module loadable but the API key is not configured, gate passed. -/
theorem chatHandler_no_credential (key : Option String) (s : String)
    (upstream : UpstreamBehavior) (hs : s ≠ "")
    (hk : apiKeyConfigured key = false) :
    chatHandler ⟨true, key⟩ (.str s) upstream =
      (⟨200, some maintenanceResponse, none⟩, []) := by
  unfold chatHandler
  simp [JsValue.truthy, JsValue.isString, hs, hk]

/-- Helper: provider fully available and the upstream call throws. -/
theorem chatHandler_throws (key : Option String) (s : String) (e : UpstreamError)
    (hs : s ≠ "") (hk : apiKeyConfigured key = true) :
    chatHandler ⟨true, key⟩ (.str s) (.throws e) =
      (handleChatError e,
       [{ model := "gpt-3.5-turbo",
          messages := [⟨"system", systemPrompt⟩, ⟨"user", s⟩],
          max_tokens := 500,
          temperature := (0.7 : ℚ) }]) := by
  unfold chatHandler
  simp [JsValue.truthy, JsValue.isString, JsValue.asString, hs, hk]

/-- Helper: provider fully available and the upstream call resolves with a
non-empty choices list. -/
theorem chatHandler_completes (key : Option String) (s : String) (choice : Choice)
    (rest : List Choice) (usage : Option Nat)
    (hs : s ≠ "") (hk : apiKeyConfigured key = true) :
    chatHandler ⟨true, key⟩ (.str s) (.completes ⟨choice :: rest, usage⟩) =
      (⟨200, some choice.message.content, none⟩,
       [{ model := "gpt-3.5-turbo",
          messages := [⟨"system", systemPrompt⟩, ⟨"user", s⟩],
          max_tokens := 500,
          temperature := (0.7 : ℚ) }]) := by
  unfold chatHandler
  simp [JsValue.truthy, JsValue.isString, JsValue.asString, hs, hk]

/-- Helper: provider fully available and the upstream call resolves with an
empty choices list (the handler then throws a codeless TypeError internally). -/
theorem chatHandler_completes_nil (key : Option String) (s : String) (usage : Option Nat)
    (hs : s ≠ "") (hk : apiKeyConfigured key = true) :
    chatHandler ⟨true, key⟩ (.str s) (.completes ⟨[], usage⟩) =
      (handleChatError ⟨none, "TypeError: Cannot read properties of undefined"⟩,
       [{ model := "gpt-3.5-turbo",
          messages := [⟨"system", systemPrompt⟩, ⟨"user", s⟩],
          max_tokens := 500,
          temperature := (0.7 : ℚ) }]) := by
  unfold chatHandler
  simp [JsValue.truthy, JsValue.isString, JsValue.asString, hs, hk]

/-- Helper: the availability check returns `available` exactly when the
module loads and the key is configured. -/
theorem checkProviderAvailability_available_iff (loadable : Bool) (key : Option String) :
    checkProviderAvailability ⟨loadable, key⟩ = .available ↔
      loadable = true ∧ apiKeyConfigured key = true := by
  unfold checkProviderAvailability
  cases loadable <;> by_cases hk : apiKeyConfigured key = true <;> simp_all

/-- Helper: the three possible results of the catch block. -/
theorem handleChatError_cases (e : UpstreamError) :
    (e.code = some "insufficient_quota" ∧ handleChatError e =
       ⟨503, none, some "Service temporarily unavailable. Please try again later."⟩) ∨
    (e.code ≠ some "insufficient_quota" ∧ e.code = some "invalid_api_key" ∧ handleChatError e =
       ⟨500, none, some "Service configuration error. Please contact support."⟩) ∨
    (e.code ≠ some "insufficient_quota" ∧ e.code ≠ some "invalid_api_key" ∧ handleChatError e =
       ⟨500, none, some "An error occurred while processing your request. Please try again."⟩) := by
  unfold handleChatError
  by_cases h1 : e.code = some "insufficient_quota" <;>
    by_cases h2 : e.code = some "invalid_api_key" <;>
      simp_all

/-- Helper: every response of the chat handler is either a 200 whose body is
a lone `response` field, or one of the four fixed error responses. -/
theorem chatHandler_shape (env : Env) (message : JsValue) (upstream : UpstreamBehavior) :
    (∃ text, (chatHandler env message upstream).1 = ⟨200, some text, none⟩) ∨
    (chatHandler env message upstream).1 ∈
      ([⟨400, none, some "Message is required and must be a string"⟩,
        ⟨503, none, some "Service temporarily unavailable. Please try again later."⟩,
        ⟨500, none, some "Service configuration error. Please contact support."⟩,
        ⟨500, none, some "An error occurred while processing your request. Please try again."⟩] :
        List HttpResponse) := by
  obtain ⟨loadable, key⟩ := env
  by_cases hg : gatePasses message = true
  · obtain ⟨s, rfl, hs⟩ := (gatePasses_iff message).mp hg
    cases loadable with
    | false => exact Or.inl ⟨_, by rw [chatHandler_module_missing key s upstream hs]⟩
    | true =>
      by_cases hk : apiKeyConfigured key = true
      · cases upstream with
        | throws e =>
          rw [chatHandler_throws key s e hs hk]
          rcases handleChatError_cases e with ⟨_, h⟩ | ⟨_, _, h⟩ | ⟨_, _, h⟩ <;>
            (right; simp [h])
        | completes c =>
          obtain ⟨choices, usage⟩ := c
          cases choices with
          | nil =>
            rw [chatHandler_completes_nil key s usage hs hk]
            rcases handleChatError_cases ⟨none, "TypeError: Cannot read properties of undefined"⟩
              with ⟨_, h⟩ | ⟨_, _, h⟩ | ⟨_, _, h⟩ <;> (right; simp [h])
          | cons choice rest =>
            rw [chatHandler_completes key s choice rest usage hs hk]
            exact Or.inl ⟨_, rfl⟩
      · rw [chatHandler_no_credential key s upstream hs (by simpa using hk)]
        exact Or.inl ⟨_, rfl⟩
  · rw [chatHandler_gate_fail ⟨loadable, key⟩ message upstream (by simpa using hg)]
    right; simp

/-- C1: for every request body in which `message` is absent (destructures to
`undefined`) or is not of string type, POST /api/chat returns HTTP 400 with
body exactly the fixed invalid-request error, and no upstream completion
call is attempted (the availability check, fallback and relay are skipped
and the list of issued upstream requests is empty). -/
theorem gate_rejects_non_string_message (env : Env) (message : JsValue)
    (upstream : UpstreamBehavior) (h : message.isString = false) :
    chatHandler env message upstream =
      (⟨400, none, some "Message is required and must be a string"⟩, []) := by
  apply chatHandler_gate_fail
  cases message <;> simp_all [gatePasses, JsValue.isString, JsValue.truthy]

/-- Witness for C1 at a concrete input: an absent `message` with the
provider fully available and an upstream mock that would answer. -/
theorem gate_rejects_non_string_message_witness :
    chatHandler ⟨true, some "sk-test"⟩ .undefined
        (.completes ⟨[⟨⟨"assistant", "Hi there!"⟩⟩], some 42⟩) =
      (⟨400, none, some "Message is required and must be a string"⟩, []) :=
  gate_rejects_non_string_message ⟨true, some "sk-test"⟩ .undefined
    (.completes ⟨[⟨⟨"assistant", "Hi there!"⟩⟩], some 42⟩) (by decide)

/-- C2 counterexample: with the provider fully available and an upstream
mock ready to answer, the empty-string message "" IS rejected with the 400
invalid-request error, because the gate's condition `!message` treats the
empty string (a falsy value) like an absent one.  This contradicts the claim
that every string, including "", is accepted. -/
theorem gate_rejects_empty_string_cex :
    chatHandler ⟨true, some "sk-test"⟩ (.str "")
        (.completes ⟨[⟨⟨"assistant", "Hi there!"⟩⟩], some 42⟩) =
      (⟨400, none, some "Message is required and must be a string"⟩, []) := by
  rfl

/-- C2 (amended): every non-empty string message — including whitespace-only
strings such as " " — passes the gate and is never rejected with a 400
status; the empty string "" is the single string value the gate rejects,
with the fixed 400 invalid-request error and no upstream call. -/
theorem gate_accepts_nonempty_strings (env : Env) (upstream : UpstreamBehavior)
    (s : String) :
    (s ≠ "" → (chatHandler env (.str s) upstream).1.status ≠ 400) ∧
    chatHandler env (.str "") upstream =
      (⟨400, none, some "Message is required and must be a string"⟩, []) := by
  constructor
  · intro hs
    obtain ⟨loadable, key⟩ := env
    cases loadable with
    | false => rw [chatHandler_module_missing key s upstream hs]; simp
    | true =>
      by_cases hk : apiKeyConfigured key = true
      · cases upstream with
        | throws e =>
          rw [chatHandler_throws key s e hs hk]
          rcases handleChatError_cases e with ⟨_, h⟩ | ⟨_, _, h⟩ | ⟨_, _, h⟩ <;> simp [h]
        | completes c =>
          obtain ⟨choices, usage⟩ := c
          cases choices with
          | nil =>
            rw [chatHandler_completes_nil key s usage hs hk]
            rcases handleChatError_cases ⟨none, "TypeError: Cannot read properties of undefined"⟩
              with ⟨_, h⟩ | ⟨_, _, h⟩ | ⟨_, _, h⟩ <;> simp [h]
          | cons choice rest =>
            rw [chatHandler_completes key s choice rest usage hs hk]; simp
      · rw [chatHandler_no_credential key s upstream hs (by simpa using hk)]; simp
  · exact chatHandler_gate_fail env (.str "") upstream (by simp [gatePasses, JsValue.truthy])

/-- Witness for C2 (amended) at a concrete input: the whitespace-only
message " " is not met with a 400. -/
theorem gate_accepts_nonempty_strings_witness :
    (chatHandler ⟨true, some "sk-test"⟩ (.str " ")
        (.throws ⟨none, "socket hang up"⟩)).1.status ≠ 400 :=
  (gate_accepts_nonempty_strings ⟨true, some "sk-test"⟩
    (.throws ⟨none, "socket hang up"⟩) " ").1 (by decide)

/-- C3: for every request passing the gate, whenever the provider is
unavailable — integration module not loadable or credential not configured —
the handler returns HTTP 200 whose body holds only a `response` field with
the fixed fallback message matching the reason, never an `error` field, and
the upstream call is bypassed (no upstream request is issued). -/
theorem fallback_on_unavailable (env : Env) (message : JsValue)
    (upstream : UpstreamBehavior)
    (hm : gatePasses message = true)
    (hu : checkProviderAvailability env ≠ .available) :
    (checkProviderAvailability env = .unavailable "module-missing" ∧
       chatHandler env message upstream = (⟨200, some fallbackResponse, none⟩, [])) ∨
    (checkProviderAvailability env = .unavailable "no-credential" ∧
       chatHandler env message upstream = (⟨200, some maintenanceResponse, none⟩, [])) := by
  obtain ⟨s, rfl, hs⟩ := (gatePasses_iff message).mp hm
  obtain ⟨loadable, key⟩ := env
  cases loadable with
  | false =>
    exact Or.inl ⟨by simp [checkProviderAvailability],
      chatHandler_module_missing key s upstream hs⟩
  | true =>
    by_cases hk : apiKeyConfigured key = true
    · exact absurd ((checkProviderAvailability_available_iff true key).mpr ⟨rfl, hk⟩) hu
    · refine Or.inr ⟨?_, chatHandler_no_credential key s upstream hs (by simpa using hk)⟩
      simp [checkProviderAvailability, hk]

/-- Witness for C3 at a concrete input: no API key configured, message
"Hello", upstream mock ready to answer: the maintenance fallback is served
with status 200 and no upstream request. -/
theorem fallback_on_unavailable_witness :
    (checkProviderAvailability ⟨true, none⟩ = .unavailable "module-missing" ∧
       chatHandler ⟨true, none⟩ (.str "Hello")
           (.completes ⟨[⟨⟨"assistant", "Hi there!"⟩⟩], some 42⟩) =
         (⟨200, some fallbackResponse, none⟩, [])) ∨
    (checkProviderAvailability ⟨true, none⟩ = .unavailable "no-credential" ∧
       chatHandler ⟨true, none⟩ (.str "Hello")
           (.completes ⟨[⟨⟨"assistant", "Hi there!"⟩⟩], some 42⟩) =
         (⟨200, some maintenanceResponse, none⟩, [])) :=
  fallback_on_unavailable ⟨true, none⟩ (.str "Hello")
    (.completes ⟨[⟨⟨"assistant", "Hi there!"⟩⟩], some 42⟩) (by decide) (by decide)

/-- C4: for every request passing the gate with the provider available and
an upstream mock resolving with a non-empty choices list, exactly one
upstream request is issued, containing exactly two messages — the system
persona prompt and the raw user message verbatim — with model gpt-3.5-turbo,
max_tokens 500 and temperature 0.7; the HTTP response is 200 with body
exactly {response: first choice's message content}.  The statement holds for
every value of the usage metadata, which therefore never reaches the
caller. -/
theorem relay_success_contract (env : Env) (message : JsValue) (choice : Choice)
    (rest : List Choice) (usage : Option Nat)
    (hm : gatePasses message = true)
    (ha : checkProviderAvailability env = .available) :
    chatHandler env message (.completes ⟨choice :: rest, usage⟩) =
      (⟨200, some choice.message.content, none⟩,
       [{ model := "gpt-3.5-turbo",
          messages := [⟨"system", systemPrompt⟩, ⟨"user", message.asString⟩],
          max_tokens := 500,
          temperature := (0.7 : ℚ) }]) := by
  obtain ⟨s, rfl, hs⟩ := (gatePasses_iff message).mp hm
  obtain ⟨loadable, key⟩ := env
  obtain ⟨hl, hk⟩ := (checkProviderAvailability_available_iff loadable key).mp ha
  subst hl
  exact chatHandler_completes key s choice rest usage hs hk

/-- Witness for C4 at the spec's concrete example: message "Hello", upstream
completion text "Hi there!". -/
theorem relay_success_contract_witness :
    chatHandler ⟨true, some "sk-test"⟩ (.str "Hello")
        (.completes ⟨[⟨⟨"assistant", "Hi there!"⟩⟩], some 42⟩) =
      (⟨200, some "Hi there!", none⟩,
       [{ model := "gpt-3.5-turbo",
          messages := [⟨"system", systemPrompt⟩, ⟨"user", "Hello"⟩],
          max_tokens := 500,
          temperature := (0.7 : ℚ) }]) :=
  relay_success_contract ⟨true, some "sk-test"⟩ (.str "Hello")
    ⟨⟨"assistant", "Hi there!"⟩⟩ [] (some 42) (by decide) (by decide)

/-- C5: for every upstream error thrown during the relay call, the
quota-exceeded code yields 503 with the fixed quota body, the
invalid-credential code yields 500 with the fixed configuration body, and
every other error yields 500 with the fixed generic body. -/
theorem upstream_error_translation (env : Env) (message : JsValue) (e : UpstreamError)
    (hm : gatePasses message = true)
    (ha : checkProviderAvailability env = .available) :
    (e.code = some "insufficient_quota" →
       (chatHandler env message (.throws e)).1 =
         ⟨503, none, some "Service temporarily unavailable. Please try again later."⟩) ∧
    (e.code = some "invalid_api_key" →
       (chatHandler env message (.throws e)).1 =
         ⟨500, none, some "Service configuration error. Please contact support."⟩) ∧
    (e.code ≠ some "insufficient_quota" → e.code ≠ some "invalid_api_key" →
       (chatHandler env message (.throws e)).1 =
         ⟨500, none, some "An error occurred while processing your request. Please try again."⟩) := by
  obtain ⟨s, rfl, hs⟩ := (gatePasses_iff message).mp hm
  obtain ⟨loadable, key⟩ := env
  obtain ⟨hl, hk⟩ := (checkProviderAvailability_available_iff loadable key).mp ha
  subst hl
  rw [chatHandler_throws key s e hs hk]
  refine ⟨fun h1 => ?_, fun h2 => ?_, fun h1 h2 => ?_⟩ <;>
    rcases handleChatError_cases e with ⟨c1, h⟩ | ⟨c1, c2, h⟩ | ⟨c1, c2, h⟩ <;>
      simp_all

/-- Witness for C5 at a concrete input: a quota-exceeded error with an
arbitrary free-text message is translated to the fixed 503 response. -/
theorem upstream_error_translation_witness :
    (chatHandler ⟨true, some "sk-test"⟩ (.str "Hello")
        (.throws ⟨some "insufficient_quota", "You exceeded your current quota"⟩)).1 =
      ⟨503, none, some "Service temporarily unavailable. Please try again later."⟩ :=
  (upstream_error_translation ⟨true, some "sk-test"⟩ (.str "Hello")
    ⟨some "insufficient_quota", "You exceeded your current quota"⟩
    (by decide) (by decide)).1 rfl

/-- C6: error classification reads only the machine-readable `code`: two
errors with the same code but different message texts translate to identical
responses; the translated body is always one of three fixed constant strings
(so no fragment of the error's free text can appear in it); and the whole
handler's observable output depends on the credential only through whether
it is configured, never through its value, so no credential can leak into a
response. -/
theorem error_classification_code_only (e1 e2 : UpstreamError) (env env2 : Env)
    (message : JsValue) (upstream : UpstreamBehavior)
    (hcode : e1.code = e2.code)
    (hload : env.openaiLoadable = env2.openaiLoadable)
    (hkey : apiKeyConfigured env.openaiApiKey = apiKeyConfigured env2.openaiApiKey) :
    handleChatError e1 = handleChatError e2 ∧
    ((handleChatError e1).error =
         some "Service temporarily unavailable. Please try again later." ∨
     (handleChatError e1).error =
         some "Service configuration error. Please contact support." ∨
     (handleChatError e1).error =
         some "An error occurred while processing your request. Please try again.") ∧
    chatHandler env message upstream = chatHandler env2 message upstream := by
  refine ⟨?_, ?_, ?_⟩
  · unfold handleChatError
    rw [hcode]
  · rcases handleChatError_cases e1 with ⟨_, h⟩ | ⟨_, _, h⟩ | ⟨_, _, h⟩ <;> simp [h]
  · unfold chatHandler
    rw [hload, hkey]

/-- Witness for C6 at concrete inputs: same code, different messages and
different configured credentials yield identical translations. -/
theorem error_classification_code_only_witness :
    handleChatError ⟨some "invalid_api_key", "Incorrect API key provided: sk-proj-XYZ"⟩ =
      handleChatError ⟨some "invalid_api_key", "expired key"⟩ ∧
    ((handleChatError ⟨some "invalid_api_key", "Incorrect API key provided: sk-proj-XYZ"⟩).error =
         some "Service temporarily unavailable. Please try again later." ∨
     (handleChatError ⟨some "invalid_api_key", "Incorrect API key provided: sk-proj-XYZ"⟩).error =
         some "Service configuration error. Please contact support." ∨
     (handleChatError ⟨some "invalid_api_key", "Incorrect API key provided: sk-proj-XYZ"⟩).error =
         some "An error occurred while processing your request. Please try again.") ∧
    chatHandler ⟨true, some "sk-first"⟩ (.str "Hello")
        (.throws ⟨some "invalid_api_key", "expired key"⟩) =
      chatHandler ⟨true, some "sk-second"⟩ (.str "Hello")
        (.throws ⟨some "invalid_api_key", "expired key"⟩) :=
  error_classification_code_only
    ⟨some "invalid_api_key", "Incorrect API key provided: sk-proj-XYZ"⟩
    ⟨some "invalid_api_key", "expired key"⟩
    ⟨true, some "sk-first"⟩ ⟨true, some "sk-second"⟩
    (.str "Hello") (.throws ⟨some "invalid_api_key", "expired key"⟩)
    rfl rfl (by decide)

/-- C7: the availability check evaluates its two preconditions in order:
module not loadable gives Unavailable("module-missing") regardless of the
credential; module loadable with an absent or empty credential gives
Unavailable("no-credential"); otherwise Available.  The last conjunct ties
the check to the handler: each unavailable reason selects the matching
fallback branch of POST /api/chat. -/
theorem availability_check_contract (env : Env) :
    (env.openaiLoadable = false →
       checkProviderAvailability env = .unavailable "module-missing") ∧
    (env.openaiLoadable = true →
       env.openaiApiKey = none ∨ env.openaiApiKey = some "" →
       checkProviderAvailability env = .unavailable "no-credential") ∧
    (∀ s, env.openaiLoadable = true → env.openaiApiKey = some s → s ≠ "" →
       checkProviderAvailability env = .available) ∧
    (∀ message upstream, gatePasses message = true →
       (checkProviderAvailability env = .unavailable "module-missing" →
          chatHandler env message upstream = (⟨200, some fallbackResponse, none⟩, [])) ∧
       (checkProviderAvailability env = .unavailable "no-credential" →
          chatHandler env message upstream = (⟨200, some maintenanceResponse, none⟩, []))) := by
  obtain ⟨loadable, key⟩ := env
  refine ⟨?_, ?_, ?_, ?_⟩
  · intro h; subst h; rfl
  · rintro hl (h | h) <;> (subst hl; subst h; rfl)
  · rintro s hl hk hs
    subst hl; subst hk
    have hc : apiKeyConfigured (some s) = true := by simp [apiKeyConfigured, hs]
    simp [checkProviderAvailability, hc]
  · rintro message upstream hm
    obtain ⟨s, rfl, hs⟩ := (gatePasses_iff message).mp hm
    constructor
    · intro hav
      cases loadable with
      | false => exact chatHandler_module_missing key s upstream hs
      | true =>
        exfalso
        by_cases hk : apiKeyConfigured key = true <;>
          simp [checkProviderAvailability, hk] at hav
    · intro hav
      cases loadable with
      | false => simp [checkProviderAvailability] at hav
      | true =>
        by_cases hk : apiKeyConfigured key = true
        · simp [checkProviderAvailability, hk] at hav
        · exact chatHandler_no_credential key s upstream hs (by simpa using hk)

/-- Witness for C7 at a concrete input: with the module missing and a
credential nonetheless configured, the module-missing reason wins. -/
theorem availability_check_contract_witness :
    checkProviderAvailability ⟨false, some "sk-test"⟩ = .unavailable "module-missing" :=
  (availability_check_contract ⟨false, some "sk-test"⟩).1 rfl

/-- C8: every JSON body produced by the pipeline carries exactly one of the
fields `response` or `error`; `response` appears exactly on the status-200
outcomes and `error` only with status 400, 404, 500 or 503; the 404 handler
and the outermost error handler follow the same envelope. -/
theorem envelope_exactly_one_field (env : Env) (message : JsValue)
    (upstream : UpstreamBehavior) :
    (((chatHandler env message upstream).1.response.isSome = true ∧
        (chatHandler env message upstream).1.error = none) ∨
     ((chatHandler env message upstream).1.response = none ∧
        (chatHandler env message upstream).1.error.isSome = true)) ∧
    ((chatHandler env message upstream).1.response.isSome = true ↔
       (chatHandler env message upstream).1.status = 200) ∧
    ((chatHandler env message upstream).1.error.isSome = true →
       (chatHandler env message upstream).1.status ∈ ([400, 404, 500, 503] : List Nat)) ∧
    notFoundHandler = ⟨404, none, some "Endpoint not found"⟩ ∧
    errorHandler = ⟨500, none, some "Internal server error"⟩ := by
  rcases chatHandler_shape env message upstream with ⟨text, h⟩ | h
  · rw [h]
    exact ⟨Or.inl ⟨rfl, rfl⟩, by simp, by simp, rfl, rfl⟩
  · simp only [List.mem_cons, List.not_mem_nil, or_false] at h
    rcases h with h | h | h | h <;> rw [h] <;>
      exact ⟨Or.inr ⟨rfl, rfl⟩, by simp, by simp, rfl, rfl⟩

/-- Witness for C8 at a concrete input: the 400 rejection's status is among
the error statuses. -/
theorem envelope_exactly_one_field_witness :
    (chatHandler ⟨true, some "sk-test"⟩ .null (.throws ⟨none, "x"⟩)).1.status ∈
      ([400, 404, 500, 503] : List Nat) :=
  (envelope_exactly_one_field ⟨true, some "sk-test"⟩ .null
    (.throws ⟨none, "x"⟩)).2.2.1 (by decide)

/-- C9: the relay issues at most one upstream completion call per request:
exactly one when the gate passes and the provider is available, zero
otherwise; no execution path performs a second call. -/
theorem single_upstream_call (env : Env) (message : JsValue)
    (upstream : UpstreamBehavior) :
    (chatHandler env message upstream).2.length ≤ 1 ∧
    ((chatHandler env message upstream).2.length = 1 ↔
       (gatePasses message = true ∧ checkProviderAvailability env = .available)) := by
  obtain ⟨loadable, key⟩ := env
  by_cases hg : gatePasses message = true
  · obtain ⟨s, rfl, hs⟩ := (gatePasses_iff message).mp hg
    cases loadable with
    | false =>
      rw [chatHandler_module_missing key s upstream hs]
      exact ⟨by simp, by simp [checkProviderAvailability]⟩
    | true =>
      by_cases hk : apiKeyConfigured key = true
      · have hav : checkProviderAvailability ⟨true, key⟩ = .available :=
          (checkProviderAvailability_available_iff true key).mpr ⟨rfl, hk⟩
        cases upstream with
        | throws e =>
          rw [chatHandler_throws key s e hs hk]
          exact ⟨by simp, by simp [hav, hg]⟩
        | completes c =>
          obtain ⟨choices, usage⟩ := c
          cases choices with
          | nil =>
            rw [chatHandler_completes_nil key s usage hs hk]
            exact ⟨by simp, by simp [hav, hg]⟩
          | cons choice rest =>
            rw [chatHandler_completes key s choice rest usage hs hk]
            exact ⟨by simp, by simp [hav, hg]⟩
      · have hk2 : apiKeyConfigured key = false := by simpa using hk
        rw [chatHandler_no_credential key s upstream hs hk2]
        exact ⟨by simp, by simp [checkProviderAvailability, hk2]⟩
  · rw [chatHandler_gate_fail ⟨loadable, key⟩ message upstream (by simpa using hg)]
    exact ⟨by simp, by simp [hg]⟩

/-- C10: the two server variants in the file are observably equivalent: for
every environment, request body and mocked upstream behavior, the two
POST /api/chat handlers produce the same HTTP response and issue the same
upstream requests, and the 404 and outermost error handlers coincide; the
variants differ only in logging and middleware configuration, which are
outside the HTTP outcome. -/
theorem variants_agree (env : Env) (message : JsValue) (upstream : UpstreamBehavior) :
    chatHandler env message upstream = chatHandler2 env message upstream ∧
    notFoundHandler = notFoundHandler2 ∧ errorHandler = errorHandler2 := by
  refine ⟨?_, rfl, rfl⟩
  rfl
